import Mathlib

/-
Verification of the approval-relay page (src/streamlit_approval.py).

The embedding models the active (uncommented) code of the module:
`decode_token`, `test_backend_connection`, `process_approval` and the
page-load logic of `main`.  External collaborators are modelled at their
interfaces: the HTTP library's outcome is an `HttpResult` value, the JSON
library is an executable integer-numeric JSON reader, and the JWT library's
unverified decode is an executable base64url-plus-JSON reader over the
token's segments.  Streamlit display calls (`st.markdown`, `st.write`,
`st.error`, ...) have no effect on the modelled state and are omitted;
note that the body of an `st.expander` runs on every page load regardless
of its `expanded` flag, so the backend-connectivity test inside the debug
expander is executed on every load.
-/

namespace ApprovalApp

/-- JSON values as handled by the Python `json` module in this program.
Numeric values are modelled as integers: the program only ever compares
integer Unix timestamps and never manipulates fractional numbers. -/
inductive Json where
  | null
  | bool (b : Bool)
  | num (n : Int)
  | str (s : String)
  | arr (xs : List Json)
  | obj (fields : List (String × Json))

/-- Decoded token claims: the key/value payload of the JWT, as a Python dict
(JSON object).  Duplicate keys are resolved by `lookupLast` below, matching
the last-key-wins behaviour of `json.loads`. -/
abbrev Claims := List (String × Json)

def quoteChar : Char := Char.ofNat 34

def backslashChar : Char := Char.ofNat 92

def lbraceChar : Char := Char.ofNat 123

def rbraceChar : Char := Char.ofNat 125

def isWsChar (c : Char) : Bool :=
  c == ' ' || c == Char.ofNat 9 || c == Char.ofNat 10 || c == Char.ofNat 13

def skipWs : List Char → List Char
  | [] => []
  | c :: cs => if isWsChar c then skipWs cs else c :: cs

/-- Python dict lookup for a dict built by `json.loads`: when the source
object repeats a key, the last occurrence wins. -/
def lookupLast (fields : List (String × Json)) (key : String) : Option Json :=
  match fields with
  | [] => none
  | (k, v) :: rest =>
    match lookupLast rest key with
    | some r => some r
    | none => if k = key then some v else none

/-- String-escape characters accepted by the modelled JSON reader
(`\u` escapes are outside the model; no input in this development uses
them). -/
def escChar (c : Char) : Option Char :=
  if c = quoteChar then some quoteChar
  else if c = backslashChar then some backslashChar
  else if c = '/' then some '/'
  else if c = 'n' then some (Char.ofNat 10)
  else if c = 't' then some (Char.ofNat 9)
  else if c = 'r' then some (Char.ofNat 13)
  else if c = 'b' then some (Char.ofNat 8)
  else if c = 'f' then some (Char.ofNat 12)
  else none

/-- Reads the body of a JSON string after the opening quote, returning the
content characters and the remaining input. -/
def parseStrChars : Nat → List Char → Option (List Char × List Char)
  | _, [] => none
  | 0, _ => none
  | fuel + 1, c :: rest =>
    if c = quoteChar then some ([], rest)
    else if c = backslashChar then
      match rest with
      | [] => none
      | e :: rest2 =>
        match escChar e with
        | none => none
        | some ec =>
          match parseStrChars fuel rest2 with
          | none => none
          | some (s, r) => some (ec :: s, r)
    else
      match parseStrChars fuel rest with
      | none => none
      | some (s, r) => some (c :: s, r)

def stripPrefixChars : List Char → List Char → Option (List Char)
  | [], s => some s
  | _ :: _, [] => none
  | p :: ps, c :: cs => if c = p then stripPrefixChars ps cs else none

def takeDigits : List Char → (List Char × List Char)
  | [] => ([], [])
  | c :: rest =>
    if c.isDigit then
      match takeDigits rest with
      | (ds, r) => (c :: ds, r)
    else ([], c :: rest)

def digitsToNat (ds : List Char) : Nat :=
  ds.foldl (fun acc c => acc * 10 + (c.toNat - 48)) 0

def nullKw : List Char := ['n', 'u', 'l', 'l']

def trueKw : List Char := ['t', 'r', 'u', 'e']

def falseKw : List Char := ['f', 'a', 'l', 's', 'e']

/-- Parsing mode: a full value, the items of an array after `[`, or the
members of an object after the opening brace. -/
inductive PMode where
  | value
  | arrTail
  | objTail

/-- Fuel-indexed JSON reader modelling `json.loads` (and `response.json()`)
on the integer-numeric fragment this program handles. -/
def parseF : Nat → PMode → List Char → Option (Json × List Char)
  | 0, _, _ => none
  | fuel + 1, PMode.value, s =>
    let s1 := skipWs s
    match stripPrefixChars nullKw s1 with
    | some r => some (Json.null, r)
    | none =>
    match stripPrefixChars trueKw s1 with
    | some r => some (Json.bool true, r)
    | none =>
    match stripPrefixChars falseKw s1 with
    | some r => some (Json.bool false, r)
    | none =>
    match s1 with
    | [] => none
    | c :: r =>
      if c = quoteChar then
        match parseStrChars (r.length + 1) r with
        | some (cs, rest) => some (Json.str (String.mk cs), rest)
        | none => none
      else if c = '[' then
        match skipWs r with
        | d :: r2 => if d = ']' then some (Json.arr [], r2) else parseF fuel PMode.arrTail r
        | [] => none
      else if c = lbraceChar then
        match skipWs r with
        | d :: r2 => if d = rbraceChar then some (Json.obj [], r2) else parseF fuel PMode.objTail r
        | [] => none
      else if c = '-' then
        match takeDigits r with
        | ([], _) => none
        | (ds, rest) => some (Json.num (-(Int.ofNat (digitsToNat ds))), rest)
      else if c.isDigit then
        match takeDigits (c :: r) with
        | (ds, rest) => some (Json.num (Int.ofNat (digitsToNat ds)), rest)
      else none
  | fuel + 1, PMode.arrTail, s =>
    match parseF fuel PMode.value s with
    | none => none
    | some (v, r) =>
      match skipWs r with
      | [] => none
      | d :: r2 =>
        if d = ',' then
          match parseF fuel PMode.arrTail r2 with
          | some (Json.arr items, r3) => some (Json.arr (v :: items), r3)
          | _ => none
        else if d = ']' then some (Json.arr [v], r2)
        else none
  | fuel + 1, PMode.objTail, s =>
    match skipWs s with
    | [] => none
    | c :: r =>
      if c = quoteChar then
        match parseStrChars (r.length + 1) r with
        | none => none
        | some (kcs, r1) =>
          match skipWs r1 with
          | [] => none
          | d :: r2 =>
            if d = ':' then
              match parseF fuel PMode.value r2 with
              | none => none
              | some (v, r3) =>
                match skipWs r3 with
                | [] => none
                | e2 :: r4 =>
                  if e2 = ',' then
                    match parseF fuel PMode.objTail r4 with
                    | some (Json.obj fs, r5) => some (Json.obj ((String.mk kcs, v) :: fs), r5)
                    | _ => none
                  else if e2 = rbraceChar then some (Json.obj [(String.mk kcs, v)], r4)
                  else none
            else none
      else none

/-- Top-level JSON parse: a single value followed only by whitespace;
`none` models a raised `json.JSONDecodeError`. -/
def parseJsonTop (cs : List Char) : Option Json :=
  match parseF (2 * cs.length + 4) PMode.value cs with
  | some (j, rest) => if (skipWs rest).isEmpty then some j else none
  | none => none

/-- Value of a base64url alphabet character. -/
def b64Val (c : Char) : Option Nat :=
  let n := c.toNat
  if 65 ≤ n ∧ n ≤ 90 then some (n - 65)
  else if 97 ≤ n ∧ n ≤ 122 then some (n - 97 + 26)
  else if 48 ≤ n ∧ n ≤ 57 then some (n - 48 + 52)
  else if n = 45 then some 62
  else if n = 95 then some 63
  else none

def mapB64 : List Char → Option (List Nat)
  | [] => some []
  | c :: cs =>
    match b64Val c with
    | none => none
    | some v =>
      match mapB64 cs with
      | none => none
      | some vs => some (v :: vs)

/-- Regroups 6-bit values into bytes; a remainder of one value is invalid
base64 (a segment length of 1 mod 4). -/
def sextetsToBytes : Nat → List Nat → Option (List Nat)
  | _, [] => some []
  | _, [_] => none
  | _, [a, b] => some [a * 4 + b / 16]
  | _, [a, b, c] => some [a * 4 + b / 16, (b % 16) * 16 + c / 4]
  | 0, _ :: _ :: _ :: _ :: _ => none
  | fuel + 1, a :: b :: c :: d :: rest =>
    match sextetsToBytes fuel rest with
    | none => none
    | some tail => some ((a * 4 + b / 16) :: ((b % 16) * 16 + c / 4) :: ((c % 4) * 64 + d) :: tail)

/-- Decoder for the unpadded base64url segments of a JWT, as performed by
the JWT library before JSON-parsing header and payload. -/
def b64urlDecode (cs : List Char) : Option (List Nat) :=
  match mapB64 cs with
  | none => none
  | some vals => sextetsToBytes (vals.length + 1) vals

/-- Byte-to-character view of a decoded segment (the program's payloads are
ASCII). -/
def bytesToChars (bs : List Nat) : List Char :=
  bs.map Char.ofNat

/-- Splits a character list at every dot, as `token.split` does in the JWT
library's segment handling. -/
def splitDotAux : List Char → List Char → List (List Char)
  | [], acc => [acc.reverse]
  | c :: rest, acc =>
    if c = '.' then acc.reverse :: splitDotAux rest [] else splitDotAux rest (c :: acc)

def splitDot (cs : List Char) : List (List Char) :=
  splitDotAux cs []

/-- Model of `decode_token` (src/streamlit_approval.py lines 289-297):
`jwt.decode(token, options=..verify_signature false..)` splits the token
into three dot-separated segments, base64url-decodes them, JSON-parses the
header and payload, and requires both to be JSON objects.  Any failure is
caught and surfaced as `None` (here `none`). -/
def decode_token (token : String) : Option Claims :=
  match splitDot token.data with
  | [h, p, sig] =>
    match b64urlDecode h, b64urlDecode p, b64urlDecode sig with
    | some hBytes, some pBytes, some _ =>
      match parseJsonTop (bytesToChars hBytes), parseJsonTop (bytesToChars pBytes) with
      | some (Json.obj _), some (Json.obj fields) => some fields
      | _, _ => none
    | _, _, _ => none
  | _ => none

/-- Python truthiness of a JSON-derived value, as used in the conditions
`if exp_timestamp` and `if token_data`. -/
def jsonTruthy : Json → Bool
  | Json.null => false
  | Json.bool b => b
  | Json.num n => n != 0
  | Json.str s => !s.data.isEmpty
  | Json.arr xs => !xs.isEmpty
  | Json.obj fs => !fs.isEmpty

/-- Model of the expiry check in `main` (lines 434-446):
`exp_timestamp = token_data.get('exp', 0)` followed by
`if exp_timestamp and datetime.utcnow().timestamp() > exp_timestamp`.
`now` is the current UTC Unix timestamp.  The result is `none` when the
comparison would raise a `TypeError` (a truthy non-numeric `exp`); a truthy
boolean compares as the number 1. -/
def is_expired (claims : Claims) (now : Int) : Option Bool :=
  let expVal := (lookupLast claims "exp").getD (Json.num 0)
  if jsonTruthy expVal then
    match expVal with
    | Json.num n => some (decide (now > n))
    | Json.bool _ => some (decide (now > 1))
    | _ => none
  else some false

/-- Python `str.title()` on ASCII text: a letter starts a word after any
non-letter and is uppercased there; letters inside a word are lowercased. -/
def titleChars : List Char → Bool → List Char
  | [], _ => []
  | c :: cs, prevAlpha =>
    if c.isAlpha then
      (if prevAlpha then c.toLower else c.toUpper) :: titleChars cs true
    else c :: titleChars cs false

def pyTitle (s : String) : String :=
  String.mk (titleChars s.data false)

/-- Python type name of a JSON-derived value, as it appears in runtime
error messages. -/
def pyTypeName : Json → String
  | Json.null => "NoneType"
  | Json.bool _ => "bool"
  | Json.num _ => "int"
  | Json.str _ => "str"
  | Json.arr _ => "list"
  | Json.obj _ => "dict"

/-- Message of a Python `AttributeError`, for example
`'int' object has no attribute 'title'`. -/
def attrErrMsg (ty attr : String) : String :=
  "\x27" ++ ty ++ "\x27 object has no attribute \x27" ++ attr ++ "\x27"

/-- Detail-extraction step of `main` (lines 449-451):
`job_id = token_data.get('job_id', 'Unknown')`,
`stage = token_data.get('stage', 'Unknown').title()`,
`action = token_data.get('action', 'Unknown').title()`.
Calling `.title()` on a non-string claim raises an `AttributeError`, which
nothing in `main` catches; that is modelled as `Except.error` with the
exception's message. -/
def renderDetails (claims : Claims) : Except String (Json × String × String) :=
  let jobId := (lookupLast claims "job_id").getD (Json.str "Unknown")
  match (lookupLast claims "stage").getD (Json.str "Unknown") with
  | Json.str st =>
    match (lookupLast claims "action").getD (Json.str "Unknown") with
    | Json.str ac => Except.ok (jobId, pyTitle st, pyTitle ac)
    | v => Except.error (attrErrMsg (pyTypeName v) "title")
  | v => Except.error (attrErrMsg (pyTypeName v) "title")

/-- Outbound HTTP request as assembled by the program. -/
structure HttpRequest where
  method : String
  url : String
  params : List (String × String)
  headers : List (String × String)
  timeout : Nat

def rstripSlash (s : String) : String :=
  String.mk ((s.data.reverse.dropWhile (fun c => c = '/')).reverse)

/-- Hardcoded backend base URL (line 334). -/
def backend_url : String := "https://c15ccbaa9f46.ngrok-free.app"

/-- Approval endpoint construction (lines 337-340): trailing slashes are
stripped from the base URL and the fixed path is appended. -/
def approval_endpoint : String :=
  rstripSlash backend_url ++ "/api/v1/approval/action"

/-- Request issued by `process_approval` (lines 343-358): a GET to the
approval endpoint with the token as the `token` query parameter, the ngrok
headers, and a 30-second timeout. -/
def approvalRequest (token : String) : HttpRequest :=
  { method := "GET"
    url := approval_endpoint
    params := [("token", token)]
    headers := [("Content-Type", "application/json"),
                ("ngrok-skip-browser-warning", "true"),
                ("User-Agent", "StreamlitApp/1.0")]
    timeout := 30 }

/-- Request issued by `test_backend_connection` (lines 302-312). -/
def testRequest : HttpRequest :=
  { method := "GET"
    url := backend_url ++ "/api/v1/approval/test"
    params := []
    headers := [("ngrok-skip-browser-warning", "true"),
                ("User-Agent", "StreamlitApp/1.0")]
    timeout := 10 }

/-- Outcome of one outbound HTTP call, at the interface of the HTTP
library: a response with status code and body text, or one of the raised
exception kinds the program distinguishes (`ConnectionError`, `Timeout`,
any other exception).  The message argument of the failure constructors is
the `str(e)` of the underlying exception. -/
inductive HttpResult where
  | response (status : Nat) (body : String)
  | connectionError (msg : String)
  | timeout
  | otherError (msg : String)

def HttpResult.isFailure : HttpResult → Bool
  | HttpResult.response _ _ => false
  | HttpResult.connectionError _ => true
  | HttpResult.timeout => true
  | HttpResult.otherError _ => true

/-- Model of `test_backend_connection` (lines 299-323): classifies the
outcome of the test request; every path returns a pair, nothing escapes. -/
def test_backend_connection (result : HttpResult) : Bool × String :=
  match result with
  | HttpResult.response 200 _ => (true, "Backend is reachable")
  | HttpResult.response s body =>
      (false, "Backend returned status " ++ Nat.repr s ++ ": " ++ body)
  | HttpResult.connectionError _ => (false, "Cannot connect to backend - connection refused")
  | HttpResult.timeout => (false, "Backend connection timeout")
  | HttpResult.otherError e => (false, "Backend test failed: " ++ e)

def isPrefixList : List Char → List Char → Bool
  | [], _ => true
  | _ :: _, [] => false
  | p :: ps, c :: cs => p == c && isPrefixList ps cs

/-- Substring test, modelling Python `'error' in some_string`. -/
def hasSub : List Char → List Char → Bool
  | [], pat => pat.isEmpty
  | s :: rest, pat => isPrefixList pat (s :: rest) || hasSub rest pat

/-- Membership of the string `"error"` in a Python list, modelling
`'error' in some_list`. -/
def listHasErrorStr : List Json → Bool
  | [] => false
  | Json.str s :: rest => s == "error" || listHasErrorStr rest
  | _ :: rest => listHasErrorStr rest

/-- Response interpretation of `process_approval` (lines 363-394), reached
once the token has decoded to a truthy dict.  The returned message is the
Python value bound to the second tuple slot, hence `Json` (an `error` or
`message` field need not be a string).

On status 200 (lines 363-370): `response.json()` parse failure is caught
as `json.JSONDecodeError` and treated as generic success; if the parse
yields a non-dict value, `.get` raises an `AttributeError` that the outer
`except Exception` handler turns into a failure outcome.

On any other status (lines 371-381): a bare `except` turns any failure of
`response.json()` or of the `'error' in error_data` / `error_data['error']`
steps into the message `"Server error: <status> - <body>"`; a parsed dict
without an `error` key keeps the initial `"Failed to process approval"`
message; `'error' in` on a string is a substring test and on a list is a
membership test, and in those positive cases the subsequent indexing with
the string key raises a `TypeError` caught by the same bare `except`.

The exception branches (lines 383-394) map `ConnectionError`, `Timeout`
and any other exception to failure outcomes with the messages shown. -/
def handleResponse (http : HttpResult) : Bool × Json :=
  match http with
  | HttpResult.response status body =>
    if status = 200 then
      match parseJsonTop body.data with
      | some (Json.obj fields) =>
          (true, (lookupLast fields "message").getD (Json.str "Approval processed successfully"))
      | some j =>
          (false, Json.str ("An error occurred: " ++ attrErrMsg (pyTypeName j) "get"))
      | none => (true, Json.str "Approval processed successfully")
    else
      match parseJsonTop body.data with
      | some (Json.obj fields) =>
        match lookupLast fields "error" with
        | some v => (false, v)
        | none => (false, Json.str "Failed to process approval")
      | some (Json.str s) =>
        if hasSub s.data "error".data then
          (false, Json.str ("Server error: " ++ Nat.repr status ++ " - " ++ body))
        else (false, Json.str "Failed to process approval")
      | some (Json.arr xs) =>
        if listHasErrorStr xs then
          (false, Json.str ("Server error: " ++ Nat.repr status ++ " - " ++ body))
        else (false, Json.str "Failed to process approval")
      | some _ => (false, Json.str ("Server error: " ++ Nat.repr status ++ " - " ++ body))
      | none => (false, Json.str ("Server error: " ++ Nat.repr status ++ " - " ++ body))
  | HttpResult.connectionError e => (false, Json.str ("Cannot connect to the backend server: " ++ e))
  | HttpResult.timeout => (false, Json.str "Request timed out. Please try again.")
  | HttpResult.otherError e => (false, Json.str ("An error occurred: " ++ e))

/-- Model of `process_approval` (lines 325-394).  The function first
re-decodes the token (lines 329-331): a decode failure or a falsy (empty)
payload dict short-circuits to `(False, "Invalid token format")`; only then
is the request issued and its outcome `http` interpreted.  No clock is
consulted anywhere in the function: expiry is never re-checked. -/
def process_approval (token : String) (http : HttpResult) : Bool × Json :=
  match decode_token token with
  | none => (false, Json.str "Invalid token format")
  | some [] => (false, Json.str "Invalid token format")
  | some (_ :: _) => handleResponse http

/-- Terminal render state of one page load of `main` (before any button
click). -/
inductive PageState where
  | noLink
  | invalidToken
  | expired
  | details (jobId : Json) (stage action : String)
  | raised (msg : String)
  | raisedTypeError

/-- Model of one page load of `main` (lines 396-519), up to and excluding
the confirm-button interaction.  `tokenParam` is the extracted `token`
query parameter, `now` the current UTC Unix timestamp, and `bt` the
outcome of the backend-connectivity test request.  The second component
counts the outbound HTTP requests issued during the load: the debug
expander (lines 405-415) runs `test_backend_connection` on every load
regardless of the token, and the valid-details path (line 464) runs it a
second time.  `if not token` is falsy for both a missing and an empty
parameter; `if token_data` is falsy for both a failed decode and an empty
payload dict.  An `AttributeError` from `.title()` or a `TypeError` from
the expiry comparison propagates out of `main` as a `raised` state. -/
def mainRender (tokenParam : Option String) (now : Int) (bt : HttpResult) : PageState × Nat :=
  let _ := test_backend_connection bt
  let debugCalls := 1
  match tokenParam with
  | none => (PageState.noLink, debugCalls)
  | some t =>
    if t = "" then (PageState.noLink, debugCalls)
    else
      match decode_token t with
      | some (k0 :: krest) =>
        match is_expired (k0 :: krest) now with
        | none => (PageState.raisedTypeError, debugCalls)
        | some true => (PageState.expired, debugCalls)
        | some false =>
          match renderDetails (k0 :: krest) with
          | Except.error msg => (PageState.raised msg, debugCalls)
          | Except.ok (jobId, stage, action) =>
            let _ := test_backend_connection bt
            (PageState.details jobId stage action, debugCalls + 1)
      | some [] => (PageState.invalidToken, debugCalls)
      | none => (PageState.invalidToken, debugCalls)

/-- Concrete well-formed token whose header is the JSON object with an
`alg` of `none`, whose payload is the JSON object mapping `stage` to the
number 5, and whose signature segment is empty. -/
def tokStageFive : String := "eyJhbGciOiJub25lIn0.eyJzdGFnZSI6NX0."

theorem string_append_ne_empty (a b : String) (h : a.data ≠ []) : a ++ b ≠ "" := by
  cases a with | mk la =>
  cases b with | mk lb =>
  intro hab
  have h2 : la ++ lb = ([] : List Char) := congrArg String.data hab
  exact h (List.append_eq_nil.mp h2).1

/-- C1 (amended): with no `token` query parameter the page load renders the
no-link state, but it performs exactly one outbound network call — the
backend-connectivity test inside the always-executed debug expander — not
zero. -/
theorem mainRender_no_token (now : Int) (bt : HttpResult) :
    mainRender none now bt = (PageState.noLink, 1) := rfl

/-- C1 counterexample: at a concrete no-token page load the no-link state
is rendered, yet the number of outbound network calls is not zero, contrary
to the claim. -/
theorem mainRender_no_token_counterexample :
    (mainRender none 0 HttpResult.timeout).1 = PageState.noLink ∧
    (mainRender none 0 HttpResult.timeout).2 ≠ 0 :=
  ⟨rfl, by decide⟩

/-- C2 (amended): for a decodable token with a truthy payload and a non-200
response, the outcome is a failure whose message is: the `error` field when
the body parses as a JSON object containing one; the initial
`"Failed to process approval"` string when the body parses as a JSON object
without an `error` field; and `"Server error: <status> - <body text>"` when
the body is not valid JSON. -/
theorem process_approval_non200 (t : String) (c : Claims) (status : Nat) (body : String)
    (hdec : decode_token t = some c) (hne : c ≠ []) (hst : status ≠ 200) :
    (parseJsonTop body.data = none →
      process_approval t (HttpResult.response status body) =
        (false, Json.str ("Server error: " ++ Nat.repr status ++ " - " ++ body))) ∧
    (∀ fs v, parseJsonTop body.data = some (Json.obj fs) → lookupLast fs "error" = some v →
      process_approval t (HttpResult.response status body) = (false, v)) ∧
    (∀ fs, parseJsonTop body.data = some (Json.obj fs) → lookupLast fs "error" = none →
      process_approval t (HttpResult.response status body) =
        (false, Json.str "Failed to process approval")) := by
  cases c with
  | nil => exact absurd rfl hne
  | cons p rest =>
    refine ⟨?_, ?_, ?_⟩
    · intro h
      simp [process_approval, hdec, handleResponse, hst, h]
    · intro fs v h hv
      simp [process_approval, hdec, handleResponse, hst, h, hv]
    · intro fs h hv
      simp [process_approval, hdec, handleResponse, hst, h, hv]

/-- C2 witness: the spec's own example — a 403 response whose body is the
JSON object mapping `error` to `"expired"` yields the outcome
`(false, "expired")`. -/
theorem process_approval_non200_witness :
    process_approval tokStageFive (HttpResult.response 403 "\x7b\"error\": \"expired\"\x7d") =
      (false, Json.str "expired") :=
  ((process_approval_non200 tokStageFive [("stage", Json.num 5)] 403
      "\x7b\"error\": \"expired\"\x7d" rfl (by simp) (by decide)).2.1)
    [("error", Json.str "expired")] (Json.str "expired") rfl rfl

/-- C2 counterexample: a 500 response whose body is the empty JSON object
(valid JSON, no `error` field) yields the message
`"Failed to process approval"`, not `"Server error: 500"` as the claim
states. -/
theorem process_approval_non200_counterexample :
    process_approval tokStageFive (HttpResult.response 500 "\x7b\x7d") =
      (false, Json.str "Failed to process approval") ∧
    "Failed to process approval" ≠ "Server error: 500" :=
  ⟨rfl, by decide⟩

/-- C3 (amended): `process_approval` does re-check decodability — it decodes
the token again and short-circuits to `(false, "Invalid token format")` when
the decode fails or yields an empty (falsy) payload — while for a decodable
token with a non-empty payload its result is `handleResponse http`, a value
depending only on the backend outcome: no clock argument exists, so expiry
is indeed not re-checked. -/
theorem process_approval_decode_recheck (t : String) (http : HttpResult) :
    (decode_token t = none →
      process_approval t http = (false, Json.str "Invalid token format")) ∧
    (decode_token t = some [] →
      process_approval t http = (false, Json.str "Invalid token format")) ∧
    (∀ k c, decode_token t = some (k :: c) →
      process_approval t http = handleResponse http) := by
  refine ⟨?_, ?_, ?_⟩
  · intro h; simp [process_approval, h]
  · intro h; simp [process_approval, h]
  · intro k c h; simp [process_approval, h]

/-- C3 witness: a non-decodable token short-circuits to the invalid-format
outcome. -/
theorem process_approval_decode_recheck_witness :
    process_approval "garbage" HttpResult.timeout = (false, Json.str "Invalid token format") :=
  (process_approval_decode_recheck "garbage" HttpResult.timeout).1 rfl

/-- C3 counterexample: the claim says `process_approval` performs no
re-check of decodability, but on a non-decodable token it returns
`(false, "Invalid token format")` without interpreting the (successful)
backend response at all. -/
theorem process_approval_recheck_counterexample :
    decode_token "garbage" = none ∧
    process_approval "garbage" (HttpResult.response 200 "\x7b\"message\": \"ok\"\x7d") =
      (false, Json.str "Invalid token format") :=
  ⟨rfl, rfl⟩

/-- C4 (amended): a token whose `exp` claim is a non-zero numeric Unix
timestamp strictly less than the current time is classified as expired.
(The zero timestamp is falsy in Python and is treated as never-expiring,
see the C4 counterexample and C5.) -/
theorem is_expired_past_nonzero (c : Claims) (now e : Int)
    (h : lookupLast c "exp" = some (Json.num e)) (h0 : e ≠ 0) (hlt : e < now) :
    is_expired c now = some true := by
  have ht : jsonTruthy (Json.num e) = true := by
    simp [jsonTruthy, bne_iff_ne]
    exact h0
  simp [is_expired, h, ht]
  exact hlt

/-- C4 witness: a token with `exp` equal to 5 is expired at time 10. -/
theorem is_expired_past_nonzero_witness :
    is_expired [("exp", Json.num 5)] 10 = some true :=
  is_expired_past_nonzero [("exp", Json.num 5)] 10 5 rfl (by decide) (by decide)

/-- C4 counterexample: an `exp` claim of 0 is a numeric Unix timestamp
strictly less than the current time 100, yet the check classifies the token
as not expired, because 0 is falsy in Python. -/
theorem is_expired_zero_counterexample :
    (0 : Int) < 100 ∧ is_expired [("exp", Json.num 0)] 100 ≠ some true :=
  ⟨by decide, by decide⟩

/-- C5: a token whose `exp` claim is absent or equal to zero is classified
as not expired, at every current time. -/
theorem is_expired_absent_or_zero (c : Claims) (now : Int)
    (h : lookupLast c "exp" = none ∨ lookupLast c "exp" = some (Json.num 0)) :
    is_expired c now = some false := by
  rcases h with h | h <;> simp [is_expired, h, jsonTruthy]

/-- C5 witness: a token with no claims at all never expires. -/
theorem is_expired_absent_or_zero_witness :
    is_expired [] 42 = some false :=
  is_expired_absent_or_zero [] 42 (Or.inl rfl)

/-- C6 (amended): for a decodable token with a truthy payload and a 200
response, the outcome is a success with the `message` field when the body
parses as a JSON object containing one, and the generic success string when
the object has no `message` field or the body is not valid JSON; however a
body that parses as valid JSON of a non-object shape produces a failure
outcome with an attribute-error message, because `.get` is called on the
parsed value. -/
theorem process_approval_200 (t : String) (c : Claims) (body : String)
    (hdec : decode_token t = some c) (hne : c ≠ []) :
    (parseJsonTop body.data = none →
      process_approval t (HttpResult.response 200 body) =
        (true, Json.str "Approval processed successfully")) ∧
    (∀ fs v, parseJsonTop body.data = some (Json.obj fs) → lookupLast fs "message" = some v →
      process_approval t (HttpResult.response 200 body) = (true, v)) ∧
    (∀ fs, parseJsonTop body.data = some (Json.obj fs) → lookupLast fs "message" = none →
      process_approval t (HttpResult.response 200 body) =
        (true, Json.str "Approval processed successfully")) ∧
    (∀ j, parseJsonTop body.data = some j → (∀ fs, j ≠ Json.obj fs) →
      process_approval t (HttpResult.response 200 body) =
        (false, Json.str ("An error occurred: " ++ attrErrMsg (pyTypeName j) "get"))) := by
  cases c with
  | nil => exact absurd rfl hne
  | cons p rest =>
    refine ⟨?_, ?_, ?_, ?_⟩
    · intro h
      simp [process_approval, hdec, handleResponse, h]
    · intro fs v h hv
      simp [process_approval, hdec, handleResponse, h, hv]
    · intro fs h hv
      simp [process_approval, hdec, handleResponse, h, hv]
    · intro j h hno
      cases j with
      | obj fs => exact absurd rfl (hno fs)
      | null => simp [process_approval, hdec, handleResponse, h, pyTypeName]
      | bool b => simp [process_approval, hdec, handleResponse, h, pyTypeName]
      | num n => simp [process_approval, hdec, handleResponse, h, pyTypeName]
      | str s => simp [process_approval, hdec, handleResponse, h, pyTypeName]
      | arr xs => simp [process_approval, hdec, handleResponse, h, pyTypeName]

/-- C6 witness: the spec's own example — a 200 response whose body is the
JSON object mapping `message` to `"ok"` yields the outcome `(true, "ok")`. -/
theorem process_approval_200_witness :
    process_approval tokStageFive (HttpResult.response 200 "\x7b\"message\": \"ok\"\x7d") =
      (true, Json.str "ok") :=
  ((process_approval_200 tokStageFive [("stage", Json.num 5)]
      "\x7b\"message\": \"ok\"\x7d" rfl (by simp)).2.1)
    [("message", Json.str "ok")] (Json.str "ok") rfl rfl

/-- C6 counterexample: a 200 response whose body is the valid JSON value
`1` (not an object) yields a failure outcome, contradicting the claim that
every 200 response yields success. -/
theorem process_approval_200_counterexample :
    process_approval tokStageFive (HttpResult.response 200 "1") =
      (false, Json.str ("An error occurred: " ++ attrErrMsg "int" "get")) ∧
    (false : Bool) ≠ true :=
  ⟨rfl, by decide⟩

/-- C7: for a decodable token with a truthy payload, every failure of the
outbound call — connection error, timeout, or any other exception — is
caught: the outcome is a failure paired with a non-empty message, and
nothing escapes. -/
theorem process_approval_failure_outcomes (t : String) (c : Claims) (http : HttpResult)
    (hdec : decode_token t = some c) (hne : c ≠ []) (hf : http.isFailure = true) :
    (process_approval t http).1 = false ∧
    ∃ m, (process_approval t http).2 = Json.str m ∧ m ≠ "" := by
  cases c with
  | nil => exact absurd rfl hne
  | cons p rest =>
    have hp : process_approval t http = handleResponse http := by
      simp [process_approval, hdec]
    rw [hp]
    cases http with
    | response s b => simp [HttpResult.isFailure] at hf
    | connectionError e =>
      exact ⟨rfl, "Cannot connect to the backend server: " ++ e, rfl,
        string_append_ne_empty _ _ (by decide)⟩
    | timeout =>
      exact ⟨rfl, "Request timed out. Please try again.", rfl, by decide⟩
    | otherError e =>
      exact ⟨rfl, "An error occurred: " ++ e, rfl,
        string_append_ne_empty _ _ (by decide)⟩

/-- C7 witness: a timeout on a concrete decodable token yields a failure
outcome with a non-empty message. -/
theorem process_approval_failure_outcomes_witness :
    (process_approval tokStageFive HttpResult.timeout).1 = false ∧
    ∃ m, (process_approval tokStageFive HttpResult.timeout).2 = Json.str m ∧ m ≠ "" :=
  process_approval_failure_outcomes tokStageFive [("stage", Json.num 5)]
    HttpResult.timeout rfl (by simp) rfl

/-- C8: for every token the outbound approval request is an HTTP GET to the
fixed URL `https://c15ccbaa9f46.ngrok-free.app/api/v1/approval/action`, with
the token carried as the `token` query parameter and a timeout of 30; the
URL does not depend on the token. -/
theorem approvalRequest_spec (token : String) :
    (approvalRequest token).method = "GET" ∧
    (approvalRequest token).url = "https://c15ccbaa9f46.ngrok-free.app/api/v1/approval/action" ∧
    (approvalRequest token).params = [("token", token)] ∧
    (approvalRequest token).timeout = 30 :=
  ⟨rfl, rfl, rfl, rfl⟩

/-- C9: a well-formed token that decodes successfully but whose `stage`
claim is the number 5 makes the page render raise an attribute error on the
title-case normalization instead of rendering a complete page. -/
theorem mainRender_numeric_stage_raises :
    decode_token tokStageFive = some [("stage", Json.num 5)] ∧
    mainRender (some tokStageFive) 0 HttpResult.timeout =
      (PageState.raised "\x27int\x27 object has no attribute \x27title\x27", 1) :=
  ⟨rfl, rfl⟩

/-- C10: decoding is deterministic and idempotent — two decodes of the same
token string yield the same result. -/
theorem decode_token_deterministic (t : String) (r1 r2 : Option Claims)
    (h1 : decode_token t = r1) (h2 : decode_token t = r2) : r1 = r2 :=
  h1.symm.trans h2

/-- C10 witness: both decodes of a concrete token evaluate to the same
claims. -/
theorem decode_token_deterministic_witness :
    (some [("stage", Json.num 5)] : Option Claims) = some [("stage", Json.num 5)] :=
  decode_token_deterministic tokStageFive
    (some [("stage", Json.num 5)]) (some [("stage", Json.num 5)]) rfl rfl

end ApprovalApp
